import Mathlib

/-
Verification of the HTML transformation and analysis engine of
src/game-agent-frontend/src/components/GameContainer.tsx: the Enhancement
Injector (injectGameEnhancements), the Heuristic Analyzer (analyzeGameHtml),
the Message Protocol Bridge (the handleMessage listener installed by
setupMessageChannel), the Score Parser (handleScoreUpdate) and the Adaptive
Layout Routine sizing arithmetic (handleResize, inside the injected bundle).

JavaScript strings are embedded as List Char (sequences of code points).
The regular-expression tests of the source are embedded as executable
scanners; in every pattern of the source the adjacent subpattern character
classes are disjoint, so the greedy left-to-right scan below is equivalent
to the backtracking semantics of the original pattern. Case-insensitive
matching (the i flag) is embedded as ASCII lower-casing, which agrees with
JavaScript on the ASCII pattern text of the source. Number arithmetic of
the layout routine is embedded exactly over Nat (see the sizing section).
-/

/-! ## String scanning primitives -/

/-- pat is an initial segment of s (String.prototype.startsWith; also the
single-position step of the other scanners). -/
def startsWith (s pat : List Char) : Bool :=
  decide (s.take pat.length = pat)

/-- JavaScript String.prototype.includes: pat occurs as a contiguous
segment of s starting at some position (all needles of the source are
nonempty literals). -/
def includes : List Char → List Char → Bool
  | [], pat => startsWith [] pat
  | c :: rest, pat => startsWith (c :: rest) pat || includes rest pat

/-- JavaScript String.prototype.replace with a plain-string pattern:
splice the replacement r in place of the first occurrence of pat; with no
occurrence, s is returned unchanged. The two replacement strings passed by
the source contain no dollar sign, so the plain splice is the exact
semantics. -/
def replaceFirst (s pat r : List Char) : List Char :=
  match s with
  | [] => []
  | c :: rest =>
      if startsWith (c :: rest) pat then r ++ (c :: rest).drop pat.length
      else c :: replaceFirst rest pat r

/-- pat occurs in s at position i: the property the scanners decide. -/
def occursAt (s pat : List Char) (i : Nat) : Prop :=
  (s.drop i).take pat.length = pat

/-! ## The Enhancement Injector (injectGameEnhancements, source 122-259) -/

/-- The fixed enhancement bundle: the exact text of the template literal
bound to the local constant named enhancements in injectGameEnhancements
(source lines 124-249), byte for byte. Braces are written with their
hexadecimal escapes \x7b and \x7d; every other character is literal. -/
def enhancements : List Char :=
  ("
      <script>
        // 替换alert为自定义提示
        window.alert = function(msg) \x7b
          window.parent.postMessage(\x7b
            type: 'game-alert',
            message: msg
          \x7d, '*');
        \x7d;
        
        // 替换confirm为自定义确认
        window.confirm = function(msg) \x7b
          window.parent.postMessage(\x7b
            type: 'game-confirm',
            message: msg
          \x7d, '*');
          return true; // 默认确认
        \x7d;
        
        // 发送游戏状态
        function sendGameStatus(status, data) \x7b
          window.parent.postMessage(\x7b
            type: 'game-status',
            status: status,
            data: data
          \x7d, '*');
        \x7d
        
        // 选择游戏根节点：优先常见选择器，其次选择 body 下面积最大的元素
        function pickGameRoot() \x7b
          const prefer = document.querySelector('#game-container, .game-area, .game-root, .game, .stage');
          if (prefer) return prefer;
          const nodes = Array.from(document.body.querySelectorAll('*')) as HTMLElement[];
          let best: HTMLElement | null = null;
          let bestArea = 0;
          for (const el of nodes) \x7b
            if (!el.offsetWidth || !el.offsetHeight) continue;
            const style = getComputedStyle(el);
            if (style.position === 'fixed' || el.tagName === 'SCRIPT' || el.tagName === 'STYLE') continue;
            const area = el.offsetWidth * el.offsetHeight;
            if (area > bestArea) \x7b bestArea = area; best = el; \x7d
          \x7d
          return best || document.body.firstElementChild as HTMLElement | null;
        \x7d

        // 自适应处理：尽量填满可视区域（不使用 transform，避免布局错位）
        function handleResize() \x7b
          const root = pickGameRoot();
          if (!root) return;
          const vw = Math.max(320, Math.floor(window.innerWidth * 0.92));
          const vh = Math.max(320, Math.floor(window.innerHeight * 0.88));

          // 通用容器限制
          root.style.maxWidth = vw + 'px';
          root.style.maxHeight = vh + 'px';
          root.style.margin = '0 auto';
          root.style.display = 'block';
          root.style.transform = '';
          (root as any).style?.removeProperty?.('transform');

          // 针对 Canvas 的等比缩放
          const canvas = (root.tagName === 'CANVAS') ? root as HTMLCanvasElement : (document.querySelector('canvas') as HTMLCanvasElement | null);
          if (canvas) \x7b
            try \x7b
              const cw = canvas.width || canvas.getAttribute('width') || 800;
              const ch = canvas.height || canvas.getAttribute('height') || 600;
              const ratio = Number(cw) / Number(ch);
              const targetWidth = Math.min(vw, Math.round(vh * ratio));
              const targetHeight = Math.round(Number(targetWidth) / ratio);
              canvas.style.width = String(targetWidth) + 'px';
              canvas.style.height = String(targetHeight) + 'px';
              canvas.style.display = 'block';
              canvas.style.margin = '0 auto';
            \x7d catch (e) \x7b /* 忽略 */ \x7d
          \x7d else \x7b
            // 非 canvas：尽量保持等比，避免高度溢出
            const rw = root.scrollWidth || root.clientWidth || 800;
            const rh = root.scrollHeight || root.clientHeight || 600;
            const r = rw / (rh || 1);
            const w = Math.min(vw, Math.round(vh * r));
            root.style.width = w + 'px';
          \x7d
        \x7d
        
        window.addEventListener('resize', handleResize);
        window.addEventListener('orientationchange', handleResize);
        window.addEventListener('load', handleResize);
        
        // 监听得分变化
        document.addEventListener('DOMContentLoaded', function() \x7b
          // 尝试获取游戏分数元素
          const observer = new MutationObserver(function() \x7b
            const scoreElement = document.querySelector('[class*=\"score\"], [id*=\"score\"]');
            if (scoreElement) \x7b
              sendGameStatus('score-update', \x7b score: scoreElement.textContent \x7d);
            \x7d
          \x7d);
          observer.observe(document.body, \x7b childList: true, subtree: true, characterData: true \x7d);
          setTimeout(handleResize, 50);
          const ro = new ResizeObserver(() => handleResize());
          ro.observe(document.body);
        \x7d);
      </script>
      <style>
        /* 避免全局覆盖 body 布局，仅做基础重置与背景 */
        html, body \x7b
          margin: 0;
          padding: 0;
          min-height: 100vh;
          background: linear-gradient(135deg, #667eea 0%, #764ba2 100%);
        \x7d
        
        /* 将布局限制在游戏容器内 */
        .game-area, #game-container, .container \x7b
          max-width: 100% !important;
          max-height: 100vh !important;
          margin: 0 auto !important;
        \x7d
        
        /* 响应式Canvas */
        canvas \x7b
          max-width: 100% !important;
          height: auto !important;
        \x7d
      </style>
    ").data

/-- The closing head marker the first fallback tier searches for. -/
def headCloseTag : List Char := "</head>".data

/-- The opening body marker of the second fallback tier. -/
def bodyOpenTag : List Char := "<body>".data

/-- The opening head marker synthesized by the second tier. -/
def headOpenTag : List Char := "<head>".data

/-- injectGameEnhancements: three-tier fallback. Tier 1: when the document
contains the closing head marker, splice the bundle in front of its first
occurrence. Tier 2: otherwise, when it contains the opening body marker,
splice a synthesized head element wrapping the bundle in front of that
marker's first occurrence. Tier 3: otherwise prepend the bundle. -/
def injectGameEnhancements (html : List Char) : List Char :=
  if includes html headCloseTag then
    replaceFirst html headCloseTag (enhancements ++ headCloseTag)
  else if includes html bodyOpenTag then
    replaceFirst html bodyOpenTag
      (headOpenTag ++ enhancements ++ headCloseTag ++ bodyOpenTag)
  else enhancements ++ html

/-! ## The Heuristic Analyzer (analyzeGameHtml, source 77-119) -/

/-- One character of case-insensitive matching: JavaScript i-flag folding
restricted to ASCII, which is exact for the ASCII pattern text used. -/
def charCI (a b : Char) : Bool := a.toLower == b.toLower

/-- pat is an initial segment of s up to ASCII case. -/
def startsWithCI : List Char → List Char → Bool
  | _, [] => true
  | [], _ :: _ => false
  | a :: s, b :: p => charCI a b && startsWithCI s p

/-- A regex test without anchors: the per-position matcher p succeeds at
some position of s (every suffix of s, the empty one included). -/
def anyPos (p : List Char → Bool) : List Char → Bool
  | [] => p []
  | c :: rest => p (c :: rest) || anyPos p rest

/-- Case-insensitive substring occurrence. -/
def includesCI (s pat : List Char) : Bool :=
  anyPos (fun t => startsWithCI t pat) s

/-- The JavaScript regex whitespace class \s. -/
def isJsWhitespace (c : Char) : Bool :=
  c == ' ' || c == '\t' || c == '\n' || c.toNat == 11 || c.toNat == 12 ||
  c == '\r' || c.toNat == 160 || c.toNat == 5760 ||
  (8192 ≤ c.toNat && c.toNat ≤ 8202) || c.toNat == 8232 ||
  c.toNat == 8233 || c.toNat == 8239 || c.toNat == 8287 ||
  c.toNat == 12288 || c.toNat == 65279

/-- The JavaScript line terminators, which the regex dot does not match. -/
def isLineTerminator (c : Char) : Bool :=
  c == '\n' || c == '\r' || c.toNat == 8232 || c.toNat == 8233

/-- The brace characters, written by code point to keep them out of the
surrounding text. -/
def lbrace : Char := Char.ofNat 123

/-- Closing brace, by code point. -/
def rbrace : Char := Char.ofNat 125

/-- Rule 1 needle 左右按钮. -/
def btnCJK1 : List Char := "左右按钮".data

/-- Rule 1 needle 点击左右. -/
def btnCJK2 : List Char := "点击左右".data

/-- Rule 1 needle 按下左右. -/
def btnCJK3 : List Char := "按下左右".data

/-- Rule 1 and rule 3 word left. -/
def leftWord : List Char := "left".data

/-- Rule 1 and rule 3 word right. -/
def rightWord : List Char := "right".data

/-- Rule 1 word button. -/
def buttonWord : List Char := "button".data

/-- The subpattern w1 \s* w2 tried at the head of s, case-insensitively:
the whitespace class and the first character of w2 are disjoint, so the
greedy whitespace run is exact. -/
def wordGapWordAt (s w1 w2 : List Char) : Bool :=
  startsWithCI s w1 &&
    startsWithCI ((s.drop w1.length).dropWhile isJsWhitespace) w2

/-- Rule 1 first test: the i-flag regex alternation of the three CJK
needles, left \s* button, and right \s* button (source line 82). -/
def mentionsButtons (html : List Char) : Bool :=
  includes html btnCJK1 || includes html btnCJK2 || includes html btnCJK3 ||
    anyPos (fun t => wordGapWordAt t leftWord buttonWord ||
      wordGapWordAt t rightWord buttonWord) html

/-- The opening of a button element, rule 1 second test. -/
def buttonOpenWord : List Char := "<button".data

/-- The subpattern <button [^>]* > [^<]* side tried at the head of s:
the bracketed classes exclude exactly their closing characters, so the
match succeeds iff the first > after <button is followed by an occurrence
of side before the next <. -/
def buttonSideAt (s : List Char) (side : Char) : Bool :=
  if startsWithCI s buttonOpenWord then
    match (s.drop buttonOpenWord.length).dropWhile (fun c => c != '>') with
    | '>' :: r2 => (r2.takeWhile (fun c => c != '<')).contains side
    | _ => false
  else false

/-- Rule 1 second test: a clickable button labeled 左 or 右
(source line 83). -/
def hasLeftRightButtons (html : List Char) : Bool :=
  anyPos (fun t => buttonSideAt t '左' || buttonSideAt t '右') html

/-- Rule 2 needle ArrowLeft (case-sensitive: that regex has no i flag). -/
def arrowLeftWord : List Char := "ArrowLeft".data

/-- Rule 2 needle ArrowRight. -/
def arrowRightWord : List Char := "ArrowRight".data

/-- Rule 2 test: a keyboard arrow-key binding (source line 89). -/
def hasArrowKeys (html : List Char) : Bool :=
  includes html arrowLeftWord || includes html arrowRightWord

/-- Rule 3 needle getBoundingClientRect() (case-sensitive). -/
def gbcrWord : List Char := "getBoundingClientRect()".data

/-- Rule 3 word top. -/
def topWord : List Char := "top".data

/-- Rule 3 word bottom. -/
def bottomWord : List Char := "bottom".data

/-- Rule 3 first test: an axis-aligned bounding-box check, a geometry
query together with a directional word (source line 95). -/
def usesAABB (html : List Char) : Bool :=
  includes html gbcrWord &&
    (includesCI html leftWord || includesCI html rightWord ||
      includesCI html topWord || includesCI html bottomWord)

/-- Rule 3 needle Math.abs( (case-sensitive). -/
def mathAbsWord : List Char := "Math.abs(".data

/-- The subpattern Math.abs( [^)]* ) \s* < \s* \d tried at the head of s:
each class excludes the character that follows it, so the greedy runs are
exact, and one digit decides the \d+ of the source pattern. -/
def distanceCheckAt (s : List Char) : Bool :=
  if startsWith s mathAbsWord then
    match (s.drop mathAbsWord.length).dropWhile (fun c => c != ')') with
    | ')' :: r2 =>
        match r2.dropWhile isJsWhitespace with
        | '<' :: r3 =>
            match r3.dropWhile isJsWhitespace with
            | d :: _ => d.isDigit
            | [] => false
        | _ => false
    | _ => false
  else false

/-- Rule 3 second test: a fixed-threshold distance comparison
(source line 96). -/
def usesDistance (html : List Char) : Bool := anyPos distanceCheckAt html

/-- Rule 4 word body. -/
def bodyWord : List Char := "body".data

/-- Rule 4 word display. -/
def displayWord : List Char := "display".data

/-- Rule 4 word flex. -/
def flexWord : List Char := "flex".data

/-- Rule 4 word overflow. -/
def overflowWord : List Char := "overflow".data

/-- Rule 4 word hidden. -/
def hiddenWord : List Char := "hidden".data

/-- The subpattern prop \s* : \s* val tried at the head of s,
case-insensitively. -/
def propColonValAt (s prop val : List Char) : Bool :=
  if startsWithCI s prop then
    match (s.drop prop.length).dropWhile isJsWhitespace with
    | ':' :: r2 => startsWithCI (r2.dropWhile isJsWhitespace) val
    | _ => false
  else false

/-- The subpattern body \s* followed by an opening brace, then, before the
next closing brace, display:flex or overflow:hidden, tried at the head of
s. The lazy class between the braces excludes the closing brace and the
two property subpatterns contain no brace, so a match lies entirely inside
the run up to the first closing brace. -/
def bodyLayoutAt (s : List Char) : Bool :=
  if startsWithCI s bodyWord then
    match (s.drop bodyWord.length).dropWhile isJsWhitespace with
    | c :: r2 =>
        c == lbrace &&
          anyPos (fun t => propColonValAt t displayWord flexWord ||
              propColonValAt t overflowWord hiddenWord)
            (r2.takeWhile (fun x => x != rbrace))
    | [] => false
  else false

/-- Rule 4 test: global layout applied to body (source line 102). -/
def setsBodyLayout (html : List Char) : Bool := anyPos bodyLayoutAt html

/-- Rule 5 needle class="game-area". -/
def gameAreaAttr : List Char := "class=\"game-area\"".data

/-- Rule 5 needle id="game-container". -/
def gameContainerAttr : List Char := "id=\"game-container\"".data

/-- Rule 5 test: a canonical game-container marker (source line 108). -/
def hasGameArea (html : List Char) : Bool :=
  includesCI html gameAreaAttr || includesCI html gameContainerAttr

/-- Rule 6 needle charset=. -/
def charsetEqWord : List Char := "charset=".data

/-- Rule 6 needle utf-8. -/
def utf8Word : List Char := "utf-8".data

/-- The subpattern .* utf-8 of rule 6, case-insensitively: utf-8 must
occur before the scan meets a line terminator, which the regex dot does
not cross. -/
def utf8SameLine : List Char → Bool
  | [] => false
  | c :: rest =>
      startsWithCI (c :: rest) utf8Word ||
        (!isLineTerminator c && utf8SameLine rest)

/-- The subpattern charset= .* utf-8 tried at the head of s. -/
def charsetAt (s : List Char) : Bool :=
  startsWithCI s charsetEqWord && utf8SameLine (s.drop charsetEqWord.length)

/-- Rule 6 test: a UTF-8 charset declaration (source line 114). -/
def charsetDeclared (html : List Char) : Bool := anyPos charsetAt html

/-- Diagnostic severity: the level union of the source. -/
inductive Severity
  | info
  | warning
  | error
deriving DecidableEq

/-- One analyzer finding: severity and message text. -/
structure Diagnostic where
  level : Severity
  text : List Char
deriving DecidableEq

/-- Rule 1 message (source line 85). -/
def msgButtons : List Char :=
  ("说明提到“左右按钮”，但页面未检测到对应的可点击按钮。建议补充可视化的左/右按钮，并保留键盘方向键支持。").data

/-- Rule 2 message (source line 91). -/
def msgArrows : List Char :=
  ("未检测到键盘方向键(ArrowLeft/ArrowRight)事件，建议同时支持键盘操作以提升可玩性。").data

/-- Rule 3 message (source line 98). -/
def msgCollision : List Char :=
  ("碰撞检测疑似使用固定距离阈值。建议改为轴对齐矩形相交（AABB）以获得更稳定的判定。").data

/-- Rule 4 message (source line 104). -/
def msgBodyLayout : List Char :=
  ("检测到对 <body> 设置了全局布局（flex/overflow）。建议将布局限制在游戏容器内（如 .game-area/#game-container），避免影响宿主页面。").data

/-- Rule 5 message (source line 110). -/
def msgGameArea : List Char :=
  ("未检测到标准的游戏容器(.game-area 或 #game-container)。建议添加统一容器，便于自适应与样式隔离。").data

/-- Rule 6 message (source line 115). -/
def msgCharset : List Char :=
  ("未检测到 UTF-8 编码声明，建议在 <head> 中加入 <meta charset=\"UTF-8\">。").data

/-- analyzeGameHtml: the six independent rules, evaluated in source order;
the imperative conditional pushes of the source are the concatenation, in
order, of one empty-or-singleton list per rule. -/
def analyzeGameHtml (html : List Char) : List Diagnostic :=
  (if mentionsButtons html && !hasLeftRightButtons html then
    [⟨.warning, msgButtons⟩] else []) ++
  (if !hasArrowKeys html then [⟨.info, msgArrows⟩] else []) ++
  (if !usesAABB html && usesDistance html then
    [⟨.warning, msgCollision⟩] else []) ++
  (if setsBodyLayout html then [⟨.info, msgBodyLayout⟩] else []) ++
  (if !hasGameArea html then [⟨.info, msgGameArea⟩] else []) ++
  (if !charsetDeclared html then [⟨.warning, msgCharset⟩] else [])

/-- Occurrence count of one diagnostic in an analyzer result. -/
def countDiag (d : Diagnostic) : List Diagnostic → Nat
  | [] => 0
  | x :: xs => (if x = d then 1 else 0) + countDiag d xs

/-! ## The Score Parser (handleScoreUpdate, source 286-300) -/

/-- The structured score state: the useState record of the host. The
source fields are JavaScript numbers holding integers; they are embedded
as Int so that sign properties are genuine statements. -/
structure ScoreState where
  correct : Int
  wrong : Int
  progress : Int
deriving DecidableEq

/-- The initial score state installed by useState. -/
def initialScore : ScoreState := ⟨0, 0, 0⟩

/-- Label of the correct-count pattern 正确[:\s]*(\d+). -/
def correctLabel : List Char := "正确".data

/-- Label of the wrong-count pattern 错误[:\s]*(\d+). -/
def wrongLabel : List Char := "错误".data

/-- Label of the progress-count pattern 进度[:\s]*(\d+). -/
def progressLabel : List Char := "进度".data

/-- The character class [:\s] separating a label from its number. -/
def isLabelSep (c : Char) : Bool := c == ':' || isJsWhitespace c

/-- The pattern label [:\s]* (\d+) tried at the head of s, returning the
captured maximal digit run. The separator class and the digits are
disjoint, so the greedy runs are exact; the i flag of the source patterns
is vacuous on their CJK labels, separators and digits. -/
def labelNumberAt (label s : List Char) : Option (List Char) :=
  if startsWith s label then
    match ((s.drop label.length).dropWhile isLabelSep).takeWhile
        Char.isDigit with
    | [] => none
    | d :: ds => some (d :: ds)
  else none

/-- String.prototype.match without the g flag: the capture of the leftmost
match, scanning positions left to right. -/
def findLabelNumber (label : List Char) : List Char → Option (List Char)
  | [] => labelNumberAt label []
  | c :: rest =>
      match labelNumberAt label (c :: rest) with
      | some ds => some ds
      | none => findLabelNumber label rest

/-- parseInt on a nonempty all-digit capture: its base-10 value. -/
def digitsToNat (ds : List Char) : Nat :=
  ds.foldl (fun n c => 10 * n + (c.toNat - 48)) 0

/-- The score-update payload sent by the injected bundle:
an object with a score field whose value is the watched element's
textContent, which may be null. -/
structure ScorePayload where
  score : Option (List Char)
deriving DecidableEq

/-- handleScoreUpdate: a missing data object, a missing or null score
field and an empty score string (all falsy in the source's guard) leave
the previous state; otherwise each of the three fields is overridden by
the capture of its pattern's leftmost match when one exists and retained
from the previous state otherwise. -/
def handleScoreUpdate (prev : ScoreState) (data : Option ScorePayload) :
    ScoreState :=
  match data with
  | none => prev
  | some p =>
      match p.score with
      | none => prev
      | some scoreText =>
          if scoreText = [] then prev
          else
            { correct :=
                match findLabelNumber correctLabel scoreText with
                | some ds => (digitsToNat ds : Int)
                | none => prev.correct
              wrong :=
                match findLabelNumber wrongLabel scoreText with
                | some ds => (digitsToNat ds : Int)
                | none => prev.wrong
              progress :=
                match findLabelNumber progressLabel scoreText with
                | some ds => (digitsToNat ds : Int)
                | none => prev.progress }

/-- The nonnegativity part of the ScoreState data-model invariant. -/
def scoreInvariant (s : ScoreState) : Prop :=
  0 ≤ s.correct ∧ 0 ≤ s.wrong ∧ 0 ≤ s.progress

/-! ## The Message Protocol Bridge (setupMessageChannel, source 262-283) -/

/-- Discriminant of alert messages. -/
def gameAlertTag : List Char := "game-alert".data

/-- Discriminant of confirm messages. -/
def gameConfirmTag : List Char := "game-confirm".data

/-- Discriminant of status messages. -/
def gameStatusTag : List Char := "game-status".data

/-- Sub-kind of score updates. -/
def scoreUpdateTag : List Char := "score-update".data

/-- The shape of an incoming event's data object: each field the handler
reads, absent when the object lacks it. -/
structure GameMessage where
  type : Option (List Char)
  message : Option (List Char)
  status : Option (List Char)
  data : Option ScorePayload

/-- The side effect the handler performs: an informational notification
(message.info), a cautionary notification (message.warning), forwarding a
payload to the Score Parser, or nothing. -/
inductive BridgeEffect
  | notifyInfo (text : Option (List Char))
  | notifyWarning (text : Option (List Char))
  | forwardScore (payload : Option ScorePayload)
  | ignore
deriving DecidableEq

/-- handleMessage: dispatch on the type discriminant; event data that is
null or undefined reads as none, and every unrecognized shape falls
through to no effect. -/
def handleMessage (eventData : Option GameMessage) : BridgeEffect :=
  match eventData with
  | none => .ignore
  | some m =>
      if m.type = some gameAlertTag then .notifyInfo m.message
      else if m.type = some gameConfirmTag then .notifyWarning m.message
      else if m.type = some gameStatusTag then
        if m.status = some scoreUpdateTag then .forwardScore m.data
        else .ignore
      else .ignore

/-! ## The Adaptive Layout Routine sizing arithmetic (handleResize,
source 170-206, inside the injected bundle)

The source computes with double-precision numbers. Every quantity here is
a rational with a small denominator; the embedding computes the same
values exactly over Nat: floor(w * 0.92) = 92*w/100 with Nat division,
and Math.round(x), which is floor(x + 1/2), applied to a fraction n/d
with d positive is (2*n + d) / (2*d) with Nat division. -/

/-- The viewport width budget: Math.max(320, Math.floor(innerWidth * 0.92))
(source line 173). -/
def viewportBudgetW (w : Nat) : Nat := max 320 (92 * w / 100)

/-- The viewport height budget: Math.max(320, Math.floor(innerHeight * 0.88))
(source line 174). -/
def viewportBudgetH (h : Nat) : Nat := max 320 (88 * h / 100)

/-- The canvas target width: Math.min(vw, Math.round(vh * (cw / ch)))
(source line 191), with cw and ch the canvas intrinsic dimensions after
the 800 and 600 fallbacks. -/
def canvasTargetW (vw vh cw ch : Nat) : Nat :=
  min vw ((2 * vh * cw + ch) / (2 * ch))

/-- The canvas target height: Math.round(targetWidth / (cw / ch))
(source line 192). -/
def canvasTargetH (vw vh cw ch : Nat) : Nat :=
  (2 * canvasTargetW vw vh cw ch * ch + cw) / (2 * cw)

/-! ## Scanner lemmas -/

theorem startsWith_iff {s pat : List Char} :
    startsWith s pat = true ↔ s.take pat.length = pat := by
  simp [startsWith]

theorem occursAt_includes {s pat : List Char} {i : Nat}
    (h : occursAt s pat i) : includes s pat = true := by
  induction s generalizing i with
  | nil =>
      have hp : pat = [] := by simpa [occursAt] using h.symm
      simp [includes, startsWith, hp]
  | cons c rest ih =>
      cases i with
      | zero =>
          have h0 : (c :: rest).take pat.length = pat := by
            simpa [occursAt] using h
          simp [includes, startsWith_iff.mpr h0]
      | succ j =>
          have hr : occursAt rest pat j := by
            simpa [occursAt] using h
          simp [includes, ih hr]

theorem includes_occursAt {s pat : List Char}
    (h : includes s pat = true) : ∃ i, occursAt s pat i := by
  induction s with
  | nil =>
      refine ⟨0, ?_⟩
      have hp : pat = [] := by simpa [includes, startsWith] using h.symm
      simp [occursAt, hp]
  | cons c rest ih =>
      rw [includes, Bool.or_eq_true] at h
      rcases h with h1 | h2
      · exact ⟨0, by simpa [occursAt] using startsWith_iff.mp h1⟩
      · obtain ⟨i, hi⟩ := ih h2
        exact ⟨i + 1, by simpa [occursAt] using hi⟩

theorem occursAt_decomp {s pat : List Char} {i : Nat}
    (h : occursAt s pat i) :
    s = s.take i ++ (pat ++ s.drop (i + pat.length)) := by
  have h2 : s.drop i = pat ++ s.drop (i + pat.length) := by
    conv_lhs => rw [← List.take_append_drop pat.length (s.drop i)]
    rw [h, List.drop_drop]
  conv_lhs => rw [← List.take_append_drop i s, h2]

theorem replaceFirst_of_startsWith {s pat : List Char} (r : List Char)
    (hpat : pat ≠ []) (h : startsWith s pat = true) :
    replaceFirst s pat r = r ++ s.drop pat.length := by
  cases s with
  | nil =>
      exfalso
      exact hpat (by simpa [startsWith] using (startsWith_iff.mp h).symm)
  | cons c rest => simp [replaceFirst, h]

theorem replaceFirst_decomp {s pat : List Char} (r : List Char)
    (hpat : pat ≠ []) (h : includes s pat = true) :
    ∃ A B, s = A ++ (pat ++ B) ∧ replaceFirst s pat r = A ++ (r ++ B) := by
  induction s with
  | nil =>
      exact absurd (by simpa [includes, startsWith] using h.symm) hpat
  | cons c rest ih =>
      by_cases h0 : startsWith (c :: rest) pat = true
      · refine ⟨[], (c :: rest).drop pat.length, ?_, ?_⟩
        · have := startsWith_iff.mp h0
          conv_lhs => rw [← List.take_append_drop pat.length (c :: rest)]
          rw [this]
          simp
        · simp [replaceFirst, h0]
      · have h2 : includes rest pat = true := by
          rw [includes, Bool.or_eq_true] at h
          rcases h with h1 | h2
          · exact absurd h1 h0
          · exact h2
        obtain ⟨A, B, hAB, hR⟩ := ih h2
        refine ⟨c :: A, B, by simp [← hAB], ?_⟩
        simp [replaceFirst, h0, hR]

/-! ## Injector case lemmas -/

theorem headCloseTag_ne_nil : headCloseTag ≠ [] := by decide

theorem bodyOpenTag_ne_nil : bodyOpenTag ≠ [] := by decide

theorem inject_case1 {html : List Char}
    (h : includes html headCloseTag = true) :
    ∃ A B, html = A ++ (headCloseTag ++ B) ∧
      injectGameEnhancements html =
        A ++ ((enhancements ++ headCloseTag) ++ B) := by
  obtain ⟨A, B, hAB, hR⟩ :=
    replaceFirst_decomp (enhancements ++ headCloseTag) headCloseTag_ne_nil h
  refine ⟨A, B, hAB, ?_⟩
  rw [injectGameEnhancements, if_pos h, hR]

theorem inject_case2 {html : List Char}
    (h1 : includes html headCloseTag = false)
    (h2 : includes html bodyOpenTag = true) :
    ∃ A B, html = A ++ (bodyOpenTag ++ B) ∧
      injectGameEnhancements html =
        A ++ ((headOpenTag ++ enhancements ++ headCloseTag ++ bodyOpenTag)
          ++ B) := by
  obtain ⟨A, B, hAB, hR⟩ :=
    replaceFirst_decomp
      (headOpenTag ++ enhancements ++ headCloseTag ++ bodyOpenTag)
      bodyOpenTag_ne_nil h2
  refine ⟨A, B, hAB, ?_⟩
  rw [injectGameEnhancements, if_neg (by simp [h1]), if_pos h2, hR]

theorem inject_case3 {html : List Char}
    (h1 : includes html headCloseTag = false)
    (h2 : includes html bodyOpenTag = false) :
    injectGameEnhancements html = enhancements ++ html := by
  rw [injectGameEnhancements, if_neg (by simp [h1]), if_neg (by simp [h2])]

/-! ## Claims about the Enhancement Injector -/

/-- C1: for every HTML input string, injectGameEnhancements follows the
three-tier fallback exactly: with a closing head marker present, the
bundle is spliced immediately before an occurrence of that marker and the
rest of the document is unchanged; otherwise, with an opening body marker
present, a synthesized head element wrapping the bundle is spliced
immediately before an occurrence of that marker; otherwise the output is
the bundle prepended to the input verbatim. One insertion point is used
and the surrounding document is preserved byte for byte. -/
theorem inject_three_tier_fallback (html : List Char) :
    if includes html headCloseTag = true then
      ∃ A B, html = A ++ headCloseTag ++ B ∧
        injectGameEnhancements html = A ++ enhancements ++ headCloseTag ++ B
    else if includes html bodyOpenTag = true then
      ∃ A B, html = A ++ bodyOpenTag ++ B ∧
        injectGameEnhancements html =
          A ++ headOpenTag ++ enhancements ++ headCloseTag ++ bodyOpenTag ++ B
    else injectGameEnhancements html = enhancements ++ html := by
  by_cases h1 : includes html headCloseTag = true
  · rw [if_pos h1]
    obtain ⟨A, B, hAB, hR⟩ := inject_case1 h1
    exact ⟨A, B, by simpa [List.append_assoc] using hAB,
      by simpa [List.append_assoc] using hR⟩
  · rw [if_neg h1]
    by_cases h2 : includes html bodyOpenTag = true
    · rw [if_pos h2]
      obtain ⟨A, B, hAB, hR⟩ :=
        inject_case2 (Bool.not_eq_true _ ▸ eq_false_of_ne_true h1) h2
      exact ⟨A, B, by simpa [List.append_assoc] using hAB,
        by simpa [List.append_assoc] using hR⟩
    · rw [if_neg h2]
      exact inject_case3 (eq_false_of_ne_true h1) (eq_false_of_ne_true h2)

/-- C2 (amended): for every HTML input string the output decomposes as
A ++ C ++ enhancements ++ D ++ B where the input is A ++ B and C, D are
the synthesized marker text of the tier taken (empty outside tier 2): the
literal bundle occurs at least once and every byte of the original
document outside the single contiguous inserted segment is preserved in
order. Exactly-once fails when the input itself overlaps the bundle text
(see the counterexample). -/
theorem inject_bundle_present_and_preserves (html : List Char) :
    ∃ A B C D, html = A ++ B ∧
      injectGameEnhancements html = A ++ C ++ enhancements ++ D ++ B := by
  by_cases h1 : includes html headCloseTag = true
  · obtain ⟨A, B, hAB, hR⟩ := inject_case1 h1
    refine ⟨A, headCloseTag ++ B, [], [], ?_, ?_⟩
    · simpa [List.append_assoc] using hAB
    · simpa [List.append_assoc] using hR
  · by_cases h2 : includes html bodyOpenTag = true
    · obtain ⟨A, B, hAB, hR⟩ := inject_case2 (eq_false_of_ne_true h1) h2
      refine ⟨A, bodyOpenTag ++ B, headOpenTag, headCloseTag, ?_, ?_⟩
      · simpa [List.append_assoc] using hAB
      · simpa [List.append_assoc] using hR
    · refine ⟨[], html, [], [], rfl, ?_⟩
      simpa using inject_case3 (eq_false_of_ne_true h1) (eq_false_of_ne_true h2)

/-- An input that already overlaps the bundle text: the closing head
marker followed by the bundle itself. -/
def bundleEchoInput : List Char := headCloseTag ++ enhancements

/-- C2 counterexample: on bundleEchoInput the injector output contains the
literal bundle at two distinct positions (0, and right after the spliced
bundle-plus-marker), so the output does not contain the bundle exactly
once. -/
theorem inject_bundle_twice_cex :
    occursAt (injectGameEnhancements bundleEchoInput) enhancements 0 ∧
    occursAt (injectGameEnhancements bundleEchoInput) enhancements
      (enhancements.length + headCloseTag.length) ∧
    0 ≠ enhancements.length + headCloseTag.length := by
  have hsw : startsWith bundleEchoInput headCloseTag = true := by
    rw [startsWith_iff, bundleEchoInput, List.take_left]
  have hso : includes bundleEchoInput headCloseTag = true :=
    occursAt_includes (i := 0)
      (by rw [occursAt, List.drop_zero, bundleEchoInput, List.take_left])
  have hout : injectGameEnhancements bundleEchoInput =
      (enhancements ++ headCloseTag) ++ enhancements := by
    rw [injectGameEnhancements, if_pos hso,
      replaceFirst_of_startsWith _ headCloseTag_ne_nil hsw,
      bundleEchoInput, List.drop_left]
  refine ⟨?_, ?_, ?_⟩
  · rw [occursAt, hout, List.drop_zero, List.append_assoc, List.take_left]
  · rw [occursAt, hout, List.append_assoc, List.drop_append,
      List.drop_left, List.take_length]
  · have h7 : 0 < headCloseTag.length := by decide
    omega

/-! ## Claims about the Score Parser -/

/-- A status text whose progress number exceeds 10. -/
def progressCexText : List Char := "进度:11".data

/-- C3 counterexample: from the initial state, a payload whose status text
carries the progress label with the number 11 drives the progress field to
11, outside [0,10]: the parser does not clamp progress to that interval. -/
theorem score_progress_exceeds_ten_cex :
    (handleScoreUpdate initialScore (some ⟨some progressCexText⟩)).progress
        = 11 ∧
    ¬ (handleScoreUpdate initialScore
        (some ⟨some progressCexText⟩)).progress ≤ 10 := by
  constructor
  · decide
  · decide

/-- C3 (amended): every ScoreState produced by the parser keeps all three
fields non-negative integers (progress has no enforced upper bound):
the initial state satisfies this invariant and every update from an
invariant-satisfying state, for every payload, preserves it. -/
theorem score_state_nonneg_invariant (prev : ScoreState)
    (data : Option ScorePayload) (h : scoreInvariant prev) :
    scoreInvariant initialScore ∧
      scoreInvariant (handleScoreUpdate prev data) := by
  obtain ⟨h1, h2, h3⟩ := h
  refine ⟨⟨le_refl 0, le_refl 0, le_refl 0⟩, ?_⟩
  match data with
  | none => exact ⟨h1, h2, h3⟩
  | some p =>
      match hp : p.score with
      | none => simp [handleScoreUpdate, hp]; exact ⟨h1, h2, h3⟩
      | some t =>
          by_cases ht : t = []
          · simp [handleScoreUpdate, hp, ht]; exact ⟨h1, h2, h3⟩
          · refine ⟨?_, ?_, ?_⟩
            · show 0 ≤ (handleScoreUpdate prev (some p)).correct
              simp only [handleScoreUpdate, hp, if_neg ht]
              cases findLabelNumber correctLabel t with
              | none => exact h1
              | some ds => exact Int.natCast_nonneg _
            · show 0 ≤ (handleScoreUpdate prev (some p)).wrong
              simp only [handleScoreUpdate, hp, if_neg ht]
              cases findLabelNumber wrongLabel t with
              | none => exact h2
              | some ds => exact Int.natCast_nonneg _
            · show 0 ≤ (handleScoreUpdate prev (some p)).progress
              simp only [handleScoreUpdate, hp, if_neg ht]
              cases findLabelNumber progressLabel t with
              | none => exact h3
              | some ds => exact Int.natCast_nonneg _

/-- C3 witness: the amended invariant theorem applied at the initial state
and a missing payload. -/
theorem score_state_nonneg_invariant_witness :
    scoreInvariant initialScore ∧
      scoreInvariant (handleScoreUpdate initialScore none) :=
  score_state_nonneg_invariant initialScore none
    (by exact ⟨by decide, by decide, by decide⟩)

/-- C4: the parser updates the three fields independently: a field whose
labeled-number pattern has no match in the status text keeps its previous
value; with no matching pattern at all the state equals the previous
state; and a missing data object or a missing score field yields the
previous state unchanged. -/
theorem score_update_field_independence (prev : ScoreState)
    (t : List Char) :
    (findLabelNumber correctLabel t = none →
      (handleScoreUpdate prev (some ⟨some t⟩)).correct = prev.correct)
    ∧ (findLabelNumber wrongLabel t = none →
      (handleScoreUpdate prev (some ⟨some t⟩)).wrong = prev.wrong)
    ∧ (findLabelNumber progressLabel t = none →
      (handleScoreUpdate prev (some ⟨some t⟩)).progress = prev.progress)
    ∧ (findLabelNumber correctLabel t = none →
       findLabelNumber wrongLabel t = none →
       findLabelNumber progressLabel t = none →
       handleScoreUpdate prev (some ⟨some t⟩) = prev)
    ∧ handleScoreUpdate prev none = prev
    ∧ handleScoreUpdate prev (some ⟨none⟩) = prev := by
  by_cases ht : t = []
  · refine ⟨?_, ?_, ?_, ?_, rfl, rfl⟩ <;> intro _ <;>
      simp [handleScoreUpdate, ht]
  · refine ⟨?_, ?_, ?_, ?_, rfl, rfl⟩
    · intro hc; simp [handleScoreUpdate, ht, hc]
    · intro hw; simp [handleScoreUpdate, ht, hw]
    · intro hp; simp [handleScoreUpdate, ht, hp]
    · intro hc hw hp
      simp [handleScoreUpdate, ht, hc, hw, hp]

/-- A status text matched by none of the three label patterns. -/
def noLabelText : List Char := "hello".data

/-- C4 witness: the independence theorem applied with a concrete previous
state and a status text with no label match, every hypothesis discharged
by evaluation. -/
theorem score_update_field_independence_witness :
    handleScoreUpdate ⟨1, 2, 3⟩ (some ⟨some noLabelText⟩) = ⟨1, 2, 3⟩ :=
  (score_update_field_independence ⟨1, 2, 3⟩ noLabelText).2.2.2.1
    (by decide) (by decide) (by decide)

/-! ## Claims about the Heuristic Analyzer -/

/-- C5: analyzeGameHtml is a pure total function of its input (a Lean
function: same diagnostics, in the same order, on every invocation), its
output splits into six per-rule segments in the fixed rule order 1 to 6,
each segment empty or the single fixed diagnostic of its rule, and the
whole output has at most six entries. -/
theorem analyze_ordered_rule_shape (html : List Char) :
    (analyzeGameHtml html).length ≤ 6 ∧
    ∃ r1 r2 r3 r4 r5 r6 : List Diagnostic,
      analyzeGameHtml html = r1 ++ r2 ++ r3 ++ r4 ++ r5 ++ r6 ∧
      (r1 = [] ∨ r1 = [⟨.warning, msgButtons⟩]) ∧
      (r2 = [] ∨ r2 = [⟨.info, msgArrows⟩]) ∧
      (r3 = [] ∨ r3 = [⟨.warning, msgCollision⟩]) ∧
      (r4 = [] ∨ r4 = [⟨.info, msgBodyLayout⟩]) ∧
      (r5 = [] ∨ r5 = [⟨.info, msgGameArea⟩]) ∧
      (r6 = [] ∨ r6 = [⟨.warning, msgCharset⟩]) := by
  have hshape : ∀ (c : Bool) (d : Diagnostic),
      (if c then [d] else []) = [] ∨ (if c then [d] else []) = [d] := by
    intro c d; cases c
    · exact Or.inl rfl
    · exact Or.inr rfl
  have hlen : ∀ (c : Bool) (d : Diagnostic),
      (if c then [d] else []).length ≤ 1 := by
    intro c d; cases c
    · simp
    · simp
  constructor
  · rw [analyzeGameHtml]
    simp only [List.length_append]
    have l1 := hlen (mentionsButtons html && !hasLeftRightButtons html)
      ⟨.warning, msgButtons⟩
    have l2 := hlen (!hasArrowKeys html) ⟨.info, msgArrows⟩
    have l3 := hlen (!usesAABB html && usesDistance html)
      ⟨.warning, msgCollision⟩
    have l4 := hlen (setsBodyLayout html) ⟨.info, msgBodyLayout⟩
    have l5 := hlen (!hasGameArea html) ⟨.info, msgGameArea⟩
    have l6 := hlen (!charsetDeclared html) ⟨.warning, msgCharset⟩
    omega
  · exact ⟨_, _, _, _, _, _, rfl,
      hshape _ _, hshape _ _, hshape _ _, hshape _ _, hshape _ _, hshape _ _⟩

theorem countDiag_append (d : Diagnostic) (l1 l2 : List Diagnostic) :
    countDiag d (l1 ++ l2) = countDiag d l1 + countDiag d l2 := by
  induction l1 with
  | nil => simp [countDiag]
  | cons x xs ih => simp [countDiag, ih]; omega

theorem countDiag_single_ne {x d : Diagnostic} (h : x ≠ d) (c : Bool) :
    countDiag d (if c then [x] else []) = 0 := by
  cases c <;> simp [countDiag, h]

theorem countDiag_single (d : Diagnostic) (c : Bool) :
    countDiag d (if c then [d] else []) = if c then 1 else 0 := by
  cases c <;> simp [countDiag]

/-- C6 (amended): for every input on which the analyzer's charset pattern
(the substring charset= followed, on the same line, by utf-8, ASCII
case-insensitively) has no match, the output carries the warning-severity
missing-UTF-8-charset diagnostic exactly once; for every input on which
that pattern matches — in particular any document with a UTF-8 charset
declaration — it carries no such diagnostic. -/
theorem analyze_charset_warning_count (html : List Char) :
    countDiag ⟨.warning, msgCharset⟩ (analyzeGameHtml html) =
      if charsetDeclared html then 0 else 1 := by
  rw [analyzeGameHtml]
  rw [countDiag_append, countDiag_append, countDiag_append, countDiag_append,
    countDiag_append]
  rw [countDiag_single_ne (by decide) _, countDiag_single_ne (by decide) _,
    countDiag_single_ne (by decide) _, countDiag_single_ne (by decide) _,
    countDiag_single_ne (by decide) _, countDiag_single _ _]
  cases h : charsetDeclared html <;> simp

/-- Modelled from the spec: the claim's hypothesis speaks of inputs that
lack any meta charset tag, a notion the code never tests; read off the
claim's words as an occurrence of a meta element opener followed by
whitespace and the charset attribute name, for comparison with the code's
actual charset pattern. -/
def specMetaCharsetTagAt (s : List Char) : Bool :=
  startsWithCI s ("<meta".data) &&
    match s.drop 5 with
    | c :: rest =>
        isJsWhitespace c &&
          startsWithCI (rest.dropWhile isJsWhitespace) ("charset".data)
    | [] => false

/-- Modelled from the spec: some position of the document carries a meta
charset tag. -/
def specHasMetaCharsetTag (html : List Char) : Bool :=
  anyPos specMetaCharsetTagAt html

/-- A document with no meta charset tag whose body text nonetheless
matches the analyzer's charset pattern. -/
def charsetCexInput : List Char := "<p>charset=utf-8</p>".data

/-- C6 counterexample: charsetCexInput lacks any meta charset tag, yet the
analyzer emits no charset diagnostic for it, because the code's pattern
matches plain text as well as meta tags. -/
theorem charset_meta_tag_cex :
    specHasMetaCharsetTag charsetCexInput = false ∧
    countDiag ⟨.warning, msgCharset⟩ (analyzeGameHtml charsetCexInput)
      = 0 := by
  constructor
  · decide
  · decide

/-- C7: analyzer rule 3 emits its warning-severity diagnostic exactly when
the fixed-threshold numeric-distance pattern is detected and no
axis-aligned-bounding-box pattern is detected; when the distance pattern
is absent or the AABB pattern is present, the rule emits nothing. -/
theorem analyze_rule3_warning_count (html : List Char) :
    countDiag ⟨.warning, msgCollision⟩ (analyzeGameHtml html) =
      if usesAABB html = false ∧ usesDistance html = true then 1
      else 0 := by
  rw [analyzeGameHtml]
  rw [countDiag_append, countDiag_append, countDiag_append, countDiag_append,
    countDiag_append]
  rw [countDiag_single_ne (by decide) _, countDiag_single_ne (by decide) _,
    countDiag_single (⟨.warning, msgCollision⟩) _,
    countDiag_single_ne (by decide) _, countDiag_single_ne (by decide) _,
    countDiag_single_ne (by decide) _]
  cases ha : usesAABB html <;> cases hd : usesDistance html <;> simp

/-! ## Claims about the Message Protocol Bridge -/

/-- C8: handleMessage is total over every incoming message shape and
dispatches on the type discriminant: game-alert routes the message text to
an informational notification, game-confirm routes it to a cautionary
notification, game-status with sub-kind score-update forwards the data
payload to the Score Parser, and every other shape — a game-status with
another sub-kind, an unknown or missing discriminant, or missing event
data — is dropped with no effect. -/
theorem bridge_dispatch_total (m : GameMessage) :
    (if m.type = some gameAlertTag then
      handleMessage (some m) = .notifyInfo m.message
    else if m.type = some gameConfirmTag then
      handleMessage (some m) = .notifyWarning m.message
    else if m.type = some gameStatusTag then
      (if m.status = some scoreUpdateTag then
        handleMessage (some m) = .forwardScore m.data
      else handleMessage (some m) = .ignore)
    else handleMessage (some m) = .ignore)
    ∧ handleMessage none = .ignore := by
  have hm : handleMessage (some m) =
      (if m.type = some gameAlertTag then .notifyInfo m.message
       else if m.type = some gameConfirmTag then .notifyWarning m.message
       else if m.type = some gameStatusTag then
         (if m.status = some scoreUpdateTag then .forwardScore m.data
          else .ignore)
       else .ignore) := rfl
  refine ⟨?_, rfl⟩
  split_ifs with h1 h2 h3 h4
  · rw [hm, if_pos h1]
  · rw [hm, if_neg h1, if_pos h2]
  · rw [hm, if_neg h1, if_neg h2, if_pos h3, if_pos h4]
  · rw [hm, if_neg h1, if_neg h2, if_pos h3, if_neg h4]
  · rw [hm, if_neg h1, if_neg h2, if_neg h3]

/-! ## Claims about the Adaptive Layout Routine sizing -/

/-- C9 (amended): the viewport budgets floor 92 and 88 percent of the
window dimensions with minimum 320; the canvas target width is capped by
the width budget in general; and on an 800 by 600 canvas with budget 1000
by 700 the computed target is 933 by 700, within both budget dimensions
and within one unit of the exact 4:3 ratio (the rounding to whole pixels
keeps the ratio only up to that rounding, see the counterexample). -/
theorem canvas_sizing_bounds :
    viewportBudgetW 200 = 320 ∧ viewportBudgetW 1250 = 1150 ∧
    viewportBudgetH 200 = 320 ∧ viewportBudgetH 1000 = 880 ∧
    canvasTargetW 1000 700 800 600 = 933 ∧
    canvasTargetH 1000 700 800 600 = 700 ∧
    canvasTargetW 1000 700 800 600 ≤ 1000 ∧
    canvasTargetH 1000 700 800 600 ≤ 700 ∧
    (∀ vw vh cw ch : Nat, canvasTargetW vw vh cw ch ≤ vw) ∧
    4 * canvasTargetH 1000 700 800 600
      - 3 * canvasTargetW 1000 700 800 600 ≤ 1 := by
  refine ⟨by decide, by decide, by decide, by decide, by decide, by decide,
    by decide, by decide, ?_, by decide⟩
  intro vw vh cw ch
  exact Nat.min_le_left _ _

/-- C9 counterexample: the computed 933 by 700 target for the 800 by 600
canvas under the 1000 by 700 budget is not exactly 4:3 — the height is
rounded up from 699.75 — so the dimensions preserve the ratio only up to
pixel rounding. -/
theorem canvas_ratio_not_exact_cex :
    3 * canvasTargetW 1000 700 800 600 = 2799 ∧
    4 * canvasTargetH 1000 700 800 600 = 2800 ∧
    ¬ 3 * canvasTargetW 1000 700 800 600
        = 4 * canvasTargetH 1000 700 800 600 := by
  refine ⟨by decide, by decide, by decide⟩

/-! ## The implicit first-match claim -/

/-- A status text carrying the correct-count label twice with different
numbers. -/
def firstTwiceText : List Char := "正确:3 正确:7".data

/-- C10: findLabelNumber returns the capture of the leftmost position at
which the labeled-number pattern matches; the captured digit run is read
as a base-10 integer (digitsToNat appends a low-order digit by multiplying
by ten); and on a status text carrying the correct label twice, the
correct field takes the first number and ignores the later occurrence. -/
theorem score_first_match_base10 :
    (∀ (label t : List Char) (i : Nat) (ds : List Char),
      labelNumberAt label (t.drop i) = some ds →
      (∀ j, j < i → labelNumberAt label (t.drop j) = none) →
      findLabelNumber label t = some ds)
    ∧ (∀ (ds : List Char) (c : Char),
      digitsToNat (ds ++ [c]) = 10 * digitsToNat ds + (c.toNat - 48))
    ∧ (handleScoreUpdate initialScore (some ⟨some firstTwiceText⟩)).correct
        = 3 := by
  refine ⟨?_, ?_, by decide⟩
  · intro label t
    induction t with
    | nil =>
        intro i ds h _
        rw [List.drop_nil] at h
        exact h
    | cons c rest ih =>
        intro i ds h hnone
        cases i with
        | zero =>
            rw [List.drop_zero] at h
            simp [findLabelNumber, h]
        | succ j =>
            have h0 : labelNumberAt label (c :: rest) = none := by
              have := hnone 0 (Nat.succ_pos j)
              simpa using this
            rw [findLabelNumber, h0]
            exact ih j ds (by simpa using h)
              (fun k hk => by simpa using hnone (k + 1) (by omega))
  · intro ds c
    simp [digitsToNat, List.foldl_append]

/-- A status text with a single progress label, for the witness. -/
def progressOnceText : List Char := "进度:4".data

/-- C10 witness: the leftmost-match theorem applied at position 0 of a
concrete status text, the match evaluated and the earlier-positions
hypothesis vacuous. -/
theorem score_first_match_base10_witness :
    findLabelNumber progressLabel progressOnceText = some ("4".data) :=
  score_first_match_base10.1 progressLabel progressOnceText 0 ("4".data)
    (by decide) (fun j hj => absurd hj (Nat.not_lt_zero j))
